import Mathlib

/-!
Verification development for the runtime-environment discovery layer of the
Proma desktop application.  The definitions below are a shallow embedding of
`apps/electron/src/main/lib/wsl-detector.ts`, the runtime coordinator module,
and the type declarations in `packages/shared/src/types/runtime.ts`.
-/

namespace Proma

/-! ## Character-list embeddings of the JavaScript string operations

The TypeScript code uses `String.prototype.split`, `trim`, `startsWith`,
`includes` and the regex replace `/^\*\s*/`.  They are embedded here as
functions over `List Char` (via `String.toList`) so that every definition
reduces in the kernel.  `Char.isWhitespace` covers the ASCII whitespace
characters, which matches the JS semantics on the inputs that matter here.
-/

/-- `splitChar p cs` splits `cs` at every character satisfying `p`, keeping
empty segments, exactly like JS `split` with a single-character pattern. -/
def splitChar (p : Char → Bool) : List Char → List (List Char)
  | [] => [[]]
  | c :: cs =>
    let r := splitChar p cs
    if p c then [] :: r
    else
      match r with
      | [] => [[c]]
      | t :: ts => (c :: t) :: ts

/-- JS `String.prototype.trim` on a character list: drop whitespace from both
ends. -/
def trimChars (cs : List Char) : List Char :=
  ((cs.dropWhile Char.isWhitespace).reverse.dropWhile Char.isWhitespace).reverse

/-- JS `line.trim()`. -/
def trimStr (s : String) : String :=
  String.mk (trimChars s.toList)

/-- JS `s.includes(pat)`: `pat` occurs as a contiguous substring of `s`. -/
def strContains (s pat : String) : Bool :=
  decide (pat.toList <:+: s.toList)

/-- JS `line.startsWith('*')`. -/
def startsWithStar (s : String) : Bool :=
  match s.toList with
  | '*' :: _ => true
  | _ => false

/-- The character-list form of the regex replace `/^\*\s*/`: remove one
leading `*` together with the whitespace run following it; a list not starting
with `*` is unchanged. -/
def stripMarkerChars (cs : List Char) : List Char :=
  match cs with
  | [] => cs
  | c :: rest => if c = '*' then rest.dropWhile Char.isWhitespace else cs

/-- JS `line.replace(/^\*\s*/, '')`. -/
def stripDefaultMarker (s : String) : String :=
  String.mk (stripMarkerChars s.toList)

/-- JS `cleanLine.split(/\s+/)` for the trimmed strings this code applies it
to: the empty string yields `[""]`, otherwise the non-empty maximal runs of
non-whitespace characters in order. -/
def splitWhitespace (s : String) : List String :=
  if s.toList = [] then [""]
  else ((splitChar Char.isWhitespace s.toList).filter (fun t => t ≠ [])).map String.mk

/-- JS `output.split('\n')`. -/
def strSplitLines (s : String) : List String :=
  (splitChar (fun c => c == '\n') s.toList).map String.mk

/-! ## wsl-detector.ts: parseWslListOutput -/

/-- Result record of `parseWslListOutput` (wsl-detector.ts, lines 29-33). -/
structure WslParseResult where
  version : Option Nat
  defaultDistro : Option String
  distros : List String
deriving DecidableEq, Repr

/-- wsl-detector.ts lines 37-42: a line is dropped as a header line when it
contains `NAME`, `STATE` or `VERSION` (case-sensitively) anywhere. -/
def isHeaderLine (line : String) : Bool :=
  strContains line "NAME" || strContains line "STATE" || strContains line "VERSION"

/-- wsl-detector.ts line 34: split into lines, trim each, drop empties
(`filter(Boolean)`). -/
def wslLines (output : String) : List String :=
  ((strSplitLines output).map trimStr).filter (fun l => !(l.toList.isEmpty))

/-- The surviving data lines: `wslLines` with the header lines removed
(wsl-detector.ts lines 37-42). -/
def wslDataLines (output : String) : List String :=
  (wslLines output).filter (fun l => !(isHeaderLine l))

/-- The token list of one data line: strip the default marker, trim, split on
whitespace (wsl-detector.ts lines 51-54). -/
def wslLineParts (line : String) : List String :=
  splitWhitespace (trimStr (stripDefaultMarker line))

/-- The body of the `for` loop of `parseWslListOutput` (wsl-detector.ts lines
48-72) as a fold step.  `Number.parseInt(versionStr, 10)` is evaluated under
the guard `versionStr === '1' || versionStr === '2'`, where it returns 1 or 2. -/
def wslLineStep (acc : WslParseResult) (line : String) : WslParseResult :=
  let isDefault := startsWithStar line
  let parts := wslLineParts line
  if parts.length < 3 then acc
  else
    let distroName := parts.headD ""
    let versionStr := parts.getLastD ""
    if distroName = "" then acc
    else
      { version :=
          if isDefault && (versionStr == "1" || versionStr == "2") then
            some (if versionStr == "1" then 1 else 2)
          else acc.version
        defaultDistro := if isDefault then some distroName else acc.defaultDistro
        distros := acc.distros ++ [distroName] }

/-- `parseWslListOutput` on an already split-and-trimmed line list. -/
def parseWslLines (ls : List String) : WslParseResult :=
  (ls.filter (fun l => !(isHeaderLine l))).foldl wslLineStep
    { version := none, defaultDistro := none, distros := [] }

/-- wsl-detector.ts lines 29-79: `parseWslListOutput`. -/
def parseWslListOutput (output : String) : WslParseResult :=
  parseWslLines (wslLines output)

/-! ## Shared type declarations (packages/shared/src/types/runtime.ts) -/

/-- runtime.ts line 9: the supported `process.platform` values. -/
inductive Platform where
  | darwin
  | linux
  | win32
deriving DecidableEq, Repr

/-- runtime.ts lines 116-127: `WslStatus`.  `version: 1 | 2 | null` is embedded
as `Option Nat`. -/
structure WslStatus where
  available : Bool
  version : Option Nat
  defaultDistro : Option String
  distros : List String
  error : Option String
deriving DecidableEq, Repr

/-- runtime.ts line 52: the `source` discriminator of `BunRuntimeStatus`. -/
inductive BunSource where
  | system
  | bundled
  | vendor
deriving DecidableEq, Repr

/-- runtime.ts lines 60-69: `NodeRuntimeStatus`. -/
structure NodeRuntimeStatus where
  available : Bool
  version : Option String
  path : Option String
  error : Option String
deriving DecidableEq, Repr

/-- runtime.ts lines 44-55: `BunRuntimeStatus`. -/
structure BunRuntimeStatus where
  available : Bool
  path : Option String
  version : Option String
  source : Option BunSource
  error : Option String
deriving DecidableEq, Repr

/-- runtime.ts lines 74-83: `GitRuntimeStatus`. -/
structure GitRuntimeStatus where
  available : Bool
  version : Option String
  path : Option String
  error : Option String
deriving DecidableEq, Repr

/-- runtime.ts lines 102-111: `GitBashStatus`. -/
structure GitBashStatus where
  available : Bool
  path : Option String
  version : Option String
  error : Option String
deriving DecidableEq, Repr

/-- runtime.ts line 138: the `recommended` discriminator. -/
inductive ShellKind where
  | gitBash
  | wsl
deriving DecidableEq, Repr

/-- runtime.ts lines 132-139: `ShellEnvironmentStatus`. -/
structure ShellEnvironmentStatus where
  gitBash : GitBashStatus
  wsl : WslStatus
  recommended : Option ShellKind
deriving DecidableEq, Repr

/-- runtime.ts lines 144-157: `RuntimeStatus`.  The optional `shell?` field is
an `Option`. -/
structure RuntimeStatus where
  node : NodeRuntimeStatus
  bun : BunRuntimeStatus
  git : GitRuntimeStatus
  shell : Option ShellEnvironmentStatus
  envLoaded : Bool
  initializedAt : Nat
deriving DecidableEq, Repr

/-- runtime.ts lines 162-173: `RuntimeInitOptions`; an absent optional flag
behaves as `false` in the coordinator's conditionals. -/
structure RuntimeInitOptions where
  skipEnvLoad : Bool := false
  skipNodeDetection : Bool := false
  skipBunDetection : Bool := false
  skipGitDetection : Bool := false
  skipShellDetection : Bool := false
deriving DecidableEq, Repr

/-- runtime.ts lines 178-185: `ShellEnvResult`. -/
structure ShellEnvResult where
  success : Bool
  loadedCount : Nat
  error : Option String
deriving DecidableEq, Repr

/-! ## wsl-detector.ts: detectWsl

`detectWsl` runs `chcp 65001 > nul && wsl.exe --list --verbose` through
`execSync`.  The probe is embedded as an explicit outcome: either the decoded
stdout, or the message of the thrown error (the `catch` branch). -/

/-- Outcome of the external `execSync` probe. -/
inductive ProbeResult where
  | ok (output : String)
  | err (message : String)
deriving DecidableEq, Repr

/-- wsl-detector.ts lines 89-164: `detectWsl`, as a function of the host
platform and the probe outcome. -/
def detectWsl (platform : Platform) (probe : ProbeResult) : WslStatus :=
  if platform ≠ Platform.win32 then
    { available := false, version := none, defaultDistro := none, distros := [],
      error := some "非 Windows 平台" }
  else
    match probe with
    | ProbeResult.ok output =>
        let parsed := parseWslListOutput output
        if parsed.distros.length == 0 then
          { available := false, version := none, defaultDistro := none, distros := [],
            error := some "WSL 已安装但未安装任何 Linux 发行版" }
        else
          { available := true, version := parsed.version,
            defaultDistro := parsed.defaultDistro, distros := parsed.distros,
            error := none }
    | ProbeResult.err msg =>
        if strContains msg "wsl.exe" &&
            (strContains msg "not found" || strContains msg "not recognized") then
          { available := false, version := none, defaultDistro := none, distros := [],
            error := some "WSL 未安装" }
        else
          { available := false, version := none, defaultDistro := none, distros := [],
            error := some ("WSL 检测失败: " ++ msg) }

/-! ## Runtime coordinator (runtime-init module)

The coordinator awaits one call to each detector.  Each external call is
embedded as an `Except String` value supplied by a `DetectorEnv`: `Except.ok`
is a resolved promise, `Except.error` a rejection (a thrown exception).  The
module-level mutable variables `runtimeStatusCache` and `isInitialized` become
an explicit `CoordState` threaded through the operations, and the list of
detector calls actually awaited is returned alongside, so that "this step was
never invoked" is expressible. -/

/-- The coordinator module's mutable state (runtime-init lines 20-24). -/
structure CoordState where
  runtimeStatusCache : Option RuntimeStatus
  isInitialized : Bool
deriving DecidableEq, Repr

/-- One awaited detector call, for the invocation trace. -/
inductive DetectorCall where
  | envLoad
  | node
  | bun
  | git
  | gitBash
  | wsl
deriving DecidableEq, Repr

/-- The environment of external calls a single initialization run consumes.
`now` is the value `Date.now()` returns when the status is assembled. -/
structure DetectorEnv where
  platform : Platform
  loadShellEnv : Except String ShellEnvResult
  detectNodeRuntime : Except String NodeRuntimeStatus
  detectBunRuntime : Except String BunRuntimeStatus
  detectGitRuntime : Except String GitRuntimeStatus
  detectGitBash : Except String GitBashStatus
  detectWslCall : Except String WslStatus
  now : Nat

/-- runtime-init lines 57-63: the substituted Node status for
`skipNodeDetection`. -/
def skippedNodeStatus : NodeRuntimeStatus :=
  { available := false, path := none, version := none, error := some "已跳过 Node.js 检测" }

/-- runtime-init lines 67-74: the substituted Bun status for
`skipBunDetection`. -/
def skippedBunStatus : BunRuntimeStatus :=
  { available := false, path := none, version := none, source := none,
    error := some "已跳过 Bun 检测" }

/-- runtime-init lines 78-84: the substituted Git status for
`skipGitDetection`. -/
def skippedGitStatus : GitRuntimeStatus :=
  { available := false, version := none, path := none, error := some "已跳过 Git 检测" }

/-- runtime-init lines 96-101: the inline recommendation logic, as the pure
resolver. -/
def resolveShellRecommendation (gitBashStatus : GitBashStatus) (wslStatus : WslStatus) :
    Option ShellKind :=
  if gitBashStatus.available then some ShellKind.gitBash
  else if wslStatus.available then some ShellKind.wsl
  else none

/-- runtime-init lines 44-54: the `envLoaded` flag.  A rejection of
`loadShellEnv` is caught and degrades to `false`. -/
def envLoadedResult (env : DetectorEnv) (options : RuntimeInitOptions) : Bool :=
  if options.skipEnvLoad then false
  else
    match env.loadShellEnv with
    | Except.ok r => r.success
    | Except.error _ => false

/-- One skippable detector step: skipping substitutes the fixed status and
awaits nothing; otherwise the detector is awaited and its call recorded. -/
def detectorStep {α : Type} (skip : Bool) (skipped : α) (call : DetectorCall)
    (run : Except String α) : Except String α × List DetectorCall :=
  if skip then (Except.ok skipped, []) else (run, [call])

/-- runtime-init lines 88-119: the Windows-only shell environment step.  Both
detector awaits sit inside one `try`; a rejection of either is caught and
leaves `shellEnvironmentStatus` undefined. -/
def shellDetectionStep (env : DetectorEnv) (options : RuntimeInitOptions) :
    Option ShellEnvironmentStatus × List DetectorCall :=
  if env.platform = Platform.win32 ∧ options.skipShellDetection = false then
    match env.detectGitBash with
    | Except.error _ => (none, [DetectorCall.gitBash])
    | Except.ok gitBashStatus =>
        match env.detectWslCall with
        | Except.error _ => (none, [DetectorCall.gitBash, DetectorCall.wsl])
        | Except.ok wslStatus =>
            (some { gitBash := gitBashStatus, wsl := wslStatus,
                    recommended := resolveShellRecommendation gitBashStatus wslStatus },
             [DetectorCall.gitBash, DetectorCall.wsl])
  else (none, [])

/-- runtime-init lines 39-148: `initializeRuntime`.  The Node/Bun/Git awaits
are not wrapped in `try`, so a rejection there propagates (`Except.error`) and
the module state is left as it was.  On success the assembled status replaces
the cache wholesale. -/
def initializeRuntime (env : DetectorEnv) (options : RuntimeInitOptions) (s : CoordState) :
    Except String RuntimeStatus × CoordState × List DetectorCall :=
  let envCalls : List DetectorCall :=
    if options.skipEnvLoad then [] else [DetectorCall.envLoad]
  let envLoaded := envLoadedResult env options
  let nodeStep :=
    detectorStep options.skipNodeDetection skippedNodeStatus DetectorCall.node
      env.detectNodeRuntime
  match nodeStep.1 with
  | Except.error e => (Except.error e, s, envCalls ++ nodeStep.2)
  | Except.ok nodeStatus =>
  let bunStep :=
    detectorStep options.skipBunDetection skippedBunStatus DetectorCall.bun
      env.detectBunRuntime
  match bunStep.1 with
  | Except.error e => (Except.error e, s, envCalls ++ nodeStep.2 ++ bunStep.2)
  | Except.ok bunStatus =>
  let gitStep :=
    detectorStep options.skipGitDetection skippedGitStatus DetectorCall.git
      env.detectGitRuntime
  match gitStep.1 with
  | Except.error e => (Except.error e, s, envCalls ++ nodeStep.2 ++ bunStep.2 ++ gitStep.2)
  | Except.ok gitStatus =>
  let shellStep := shellDetectionStep env options
  let runtimeStatus : RuntimeStatus :=
    { node := nodeStatus, bun := bunStatus, git := gitStatus,
      shell := shellStep.1, envLoaded := envLoaded, initializedAt := env.now }
  (Except.ok runtimeStatus,
   { runtimeStatusCache := some runtimeStatus, isInitialized := true },
   envCalls ++ nodeStep.2 ++ bunStep.2 ++ gitStep.2 ++ shellStep.2)

/-- runtime-init lines 155-157: `getRuntimeStatus`, a pure read of the cache. -/
def getRuntimeStatus (s : CoordState) : Option RuntimeStatus :=
  s.runtimeStatusCache

/-- runtime-init lines 164-166: `isRuntimeInitialized`. -/
def isRuntimeInitialized (s : CoordState) : Bool :=
  s.isInitialized

/-- runtime-init lines 174-178: `reinitializeRuntime` resets `isInitialized`
and clears `runtimeStatusCache` to `null`, then re-runs `initializeRuntime`. -/
def reinitializeRuntime (env : DetectorEnv) (options : RuntimeInitOptions)
    (_s : CoordState) : Except String RuntimeStatus × CoordState × List DetectorCall :=
  initializeRuntime env options { runtimeStatusCache := none, isInitialized := false }

/-! ## Spec-modelled detectors

The source files node-detector.ts, git-detector.ts, git-bash-detector.ts and
bun-finder.ts are not under src/; only their callers are.  The detectors they
export are modelled here from the spec so that the status invariant can be
checked for them too. -/

/-- Outcome of probing one simple tool: binary absent everywhere, found but
execution failed or timed out, or ran and printed output from which a version
token may or may not have been extracted. -/
inductive ToolProbeOutcome where
  | notFound (message : String)
  | execFailed (message : String)
  | ran (path : String) (versionToken : Option String)
deriving DecidableEq, Repr

/-- Modelled from the spec: NodeDetector `detect()` (spec item 4.2;
node-detector.ts is missing from src/).  Tool present but version unparsable
yields `available=true, version=null`; any probe failure yields
`available=false`, a descriptive error, and `path=null`. -/
def detectNodeModel (outcome : ToolProbeOutcome) : NodeRuntimeStatus :=
  match outcome with
  | ToolProbeOutcome.notFound m => { available := false, version := none, path := none, error := some m }
  | ToolProbeOutcome.execFailed m => { available := false, version := none, path := none, error := some m }
  | ToolProbeOutcome.ran p v => { available := true, version := v, path := some p, error := none }

/-- Modelled from the spec: GitDetector `detect()` (spec item 4.2;
git-detector.ts is missing from src/), same shape as the Node detector. -/
def detectGitModel (outcome : ToolProbeOutcome) : GitRuntimeStatus :=
  match outcome with
  | ToolProbeOutcome.notFound m => { available := false, version := none, path := none, error := some m }
  | ToolProbeOutcome.execFailed m => { available := false, version := none, path := none, error := some m }
  | ToolProbeOutcome.ran p v => { available := true, version := v, path := some p, error := none }

/-- Modelled from the spec: GitBashDetector `detect()` (spec item 4.5;
git-bash-detector.ts is missing from src/), same shape as item 4.2. -/
def detectGitBashModel (outcome : ToolProbeOutcome) : GitBashStatus :=
  match outcome with
  | ToolProbeOutcome.notFound m => { available := false, version := none, path := none, error := some m }
  | ToolProbeOutcome.execFailed m => { available := false, version := none, path := none, error := some m }
  | ToolProbeOutcome.ran p v => { available := true, version := v, path := some p, error := none }

/-- Modelled from the spec: BunDetector `detect()` (spec item 4.3;
bun-finder.ts is missing from src/).  `winner` is the first of the three
ordered strategies producing a runnable binary, with its path, extracted
version token and `source`; all three failing yields `available=false`,
`source=null` and an aggregated error naming the attempted strategies. -/
def detectBunModel (winner : Option (String × Option String × BunSource))
    (aggregatedError : String) : BunRuntimeStatus :=
  match winner with
  | some (p, v, src) =>
      { available := true, path := some p, version := v, source := some src, error := none }
  | none =>
      { available := false, path := none, version := none, source := none,
        error := some aggregatedError }

/-! ## Characterization of the parser fold -/

/-- Overwrite-fold: the last element of `l` (as `some`), or `a` when `l` is
empty.  This is exactly how repeated assignment inside the parser loop
behaves. -/
def lastSome {α : Type} (l : List α) (a : Option α) : Option α :=
  l.foldl (fun _ x => some x) a

/-- The distro name one data line contributes: its first token, provided the
line splits into at least three tokens and the token is non-empty. -/
def lineDistroName (line : String) : Option String :=
  let parts := wslLineParts line
  if parts.length < 3 then none
  else if parts.headD "" = "" then none
  else some (parts.headD "")

/-- The default-distro name one data line contributes: its distro name when it
carries the leading `*` marker. -/
def lineDefaultName (line : String) : Option String :=
  if startsWithStar line then lineDistroName line else none

/-- The version one data line contributes: from a default row whose last token
is `1` or `2` (and which contributes a distro name at all). -/
def lineVersionMark (line : String) : Option Nat :=
  let parts := wslLineParts line
  if parts.length < 3 then none
  else if parts.headD "" = "" then none
  else if startsWithStar line && (parts.getLastD "" == "1" || parts.getLastD "" == "2") then
    some (if parts.getLastD "" == "1" then 1 else 2)
  else none

theorem lastSome_nil {α : Type} (a : Option α) : lastSome [] a = a := rfl

theorem lastSome_cons {α : Type} (x : α) (l : List α) (a : Option α) :
    lastSome (x :: l) a = lastSome l (some x) := rfl

/-- One step of the parser loop, re-expressed through the three per-line
contribution functions. -/
theorem wslLineStep_eq (acc : WslParseResult) (line : String) :
    wslLineStep acc line =
      { version := lastSome (lineVersionMark line).toList acc.version
        defaultDistro := lastSome (lineDefaultName line).toList acc.defaultDistro
        distros := acc.distros ++ (lineDistroName line).toList } := by
  simp only [wslLineStep, lineVersionMark, lineDefaultName, lineDistroName]
  split_ifs with h1 h2 h3 h4 h5 h6 <;>
    simp_all [lastSome, startsWithStar, Option.toList]

/-- The whole parser fold, characterized: distro names accumulate in encounter
order, and the default name and version are overwritten by each contributing
line, so the last contributing line wins. -/
theorem wslFold_spec (ls : List String) (acc : WslParseResult) :
    ls.foldl wslLineStep acc =
      { version := lastSome (ls.filterMap lineVersionMark) acc.version
        defaultDistro := lastSome (ls.filterMap lineDefaultName) acc.defaultDistro
        distros := acc.distros ++ ls.filterMap lineDistroName } := by
  induction ls generalizing acc with
  | nil => simp [lastSome]
  | cons l ls ih =>
      rw [List.foldl_cons, wslLineStep_eq, ih]
      cases hv : lineVersionMark l <;> cases hd : lineDefaultName l <;>
        cases hn : lineDistroName l <;>
        simp [List.filterMap_cons, hv, hd, hn, lastSome_nil, lastSome_cons, Option.toList]

/-! ## Tokens are substrings of their line

These lemmas trace a parsed distro name back to a contiguous substring of the
data line it came from; they drive the argument that a name containing a
header token can never survive the header filter. -/

theorem splitChar_spec (p : Char → Bool) (cs : List Char) :
    ∃ t₀ ts, splitChar p cs = t₀ :: ts ∧ t₀ <+: cs ∧ ∀ t ∈ ts, t <:+: cs := by
  induction cs with
  | nil => exact ⟨[], [], rfl, List.nil_prefix, by simp⟩
  | cons c cs ih =>
      obtain ⟨t₀, ts, hsplit, hpre, hinf⟩ := ih
      by_cases hc : p c = true
      · refine ⟨[], t₀ :: ts, ?_, List.nil_prefix, ?_⟩
        · simp [splitChar, hsplit, hc]
        · intro t ht
          rcases List.mem_cons.mp ht with rfl | ht
          · exact List.infix_cons hpre.isInfix
          · exact List.infix_cons (hinf t ht)
      · refine ⟨c :: t₀, ts, ?_, ?_, ?_⟩
        · simp [splitChar, hsplit, hc]
        · obtain ⟨r, hr⟩ := hpre
          exact ⟨r, by simp [← hr]⟩
        · intro t ht
          exact List.infix_cons (hinf t ht)

theorem mem_splitChar_within (p : Char → Bool) (cs t : List Char)
    (h : t ∈ splitChar p cs) : t <:+: cs := by
  obtain ⟨t₀, ts, hsplit, hpre, hinf⟩ := splitChar_spec p cs
  rw [hsplit] at h
  rcases List.mem_cons.mp h with rfl | h
  · exact hpre.isInfix
  · exact hinf t h

theorem mem_splitWhitespace_within (s t : String) (h : t ∈ splitWhitespace s) :
    t.toList <:+: s.toList := by
  unfold splitWhitespace at h
  split_ifs at h with hempty
  · rcases List.mem_singleton.mp h with rfl
    exact List.nil_infix
  · obtain ⟨cs, hcs, rfl⟩ := List.mem_map.mp h
    exact mem_splitChar_within _ _ _ (List.mem_filter.mp hcs).1

theorem trimChars_within (cs : List Char) : trimChars cs <:+: cs := by
  unfold trimChars
  have h1 : cs.dropWhile Char.isWhitespace <:+ cs := List.dropWhile_suffix _
  have h2 : ((cs.dropWhile Char.isWhitespace).reverse.dropWhile Char.isWhitespace).reverse <+:
      cs.dropWhile Char.isWhitespace := by
    rw [← List.reverse_suffix, List.reverse_reverse]
    exact List.dropWhile_suffix _
  exact h2.isInfix.trans h1.isInfix

theorem stripMarkerChars_suffix (cs : List Char) : stripMarkerChars cs <:+ cs := by
  unfold stripMarkerChars
  cases cs with
  | nil => exact List.suffix_refl _
  | cons c rest =>
      by_cases hc : c = '*'
      · simp only [hc, if_pos rfl]
        exact (List.dropWhile_suffix _).trans (List.suffix_cons _ _)
      · simp only [if_neg hc]
        exact List.suffix_refl _

theorem stripDefaultMarker_suffix (s : String) :
    (stripDefaultMarker s).toList <:+ s.toList :=
  stripMarkerChars_suffix s.toList

theorem wslLineParts_within (line t : String) (h : t ∈ wslLineParts line) :
    t.toList <:+: line.toList := by
  unfold wslLineParts at h
  have h1 := mem_splitWhitespace_within _ _ h
  have h2 : (trimStr (stripDefaultMarker line)).toList <:+: line.toList := by
    have h3 : trimChars (stripDefaultMarker line).toList <:+:
        (stripDefaultMarker line).toList := trimChars_within _
    exact h3.trans (stripDefaultMarker_suffix line).isInfix
  exact h1.trans h2

theorem lineDistroName_mem (line d : String) (h : lineDistroName line = some d) :
    d ∈ wslLineParts line := by
  simp only [lineDistroName] at h
  split_ifs at h with h1 h2
  cases hp : wslLineParts line with
  | nil => rw [hp] at h1; simp at h1
  | cons p ps =>
      rw [hp] at h
      simp only [List.headD_cons, Option.some.injEq] at h
      subst h
      exact List.mem_cons_self p ps

theorem lineDistroName_within (line d : String) (h : lineDistroName line = some d) :
    d.toList <:+: line.toList :=
  wslLineParts_within line d (lineDistroName_mem line d h)

theorem strContains_of_within (s t pat : String) (h1 : strContains t pat = true)
    (h2 : t.toList <:+: s.toList) : strContains s pat = true := by
  unfold strContains at h1 ⊢
  exact decide_eq_true ((of_decide_eq_true h1).trans h2)

theorem lineDistroName_no_header_token (line d : String)
    (hline : isHeaderLine line = false) (h : lineDistroName line = some d) :
    strContains d "NAME" = false ∧ strContains d "STATE" = false ∧
    strContains d "VERSION" = false := by
  have hinf := lineDistroName_within line d h
  unfold isHeaderLine at hline
  simp only [Bool.or_eq_false_iff] at hline
  refine ⟨?_, ?_, ?_⟩
  · cases hc : strContains d "NAME" with
    | false => rfl
    | true => exact absurd (strContains_of_within line d "NAME" hc hinf) (by simp [hline.1.1])
  · cases hc : strContains d "STATE" with
    | false => rfl
    | true => exact absurd (strContains_of_within line d "STATE" hc hinf) (by simp [hline.1.2])
  · cases hc : strContains d "VERSION" with
    | false => rfl
    | true => exact absurd (strContains_of_within line d "VERSION" hc hinf) (by simp [hline.2])

theorem lastSome_eq_some {α : Type} (l : List α) (a : Option α) (d : α)
    (h : lastSome l a = some d) : d ∈ l ∨ a = some d := by
  induction l generalizing a with
  | nil => exact Or.inr h
  | cons x l ih =>
      rw [lastSome_cons] at h
      rcases ih (some x) h with h | h
      · exact Or.inl (List.mem_cons_of_mem x h)
      · exact Or.inl (Option.some.inj h ▸ List.mem_cons_self x l)

/-! ## Claim theorems about the WSL list parser -/

/-- C1: for the literal `wsl --list --verbose` output consisting of the header
line, the default row `* Ubuntu Running 2` and the row `Debian Stopped 1`,
`parseWslListOutput` returns the distros `Ubuntu`, `Debian` in that order,
default distro `Ubuntu`, and version 2. -/
theorem parseWslExample_c1 :
    parseWslListOutput
      "  NAME            STATE           VERSION\n* Ubuntu          Running         2\n  Debian          Stopped         1" =
      { version := some 2, defaultDistro := some "Ubuntu",
        distros := ["Ubuntu", "Debian"] } := by
  decide

/-- C7: on any output whose trimmed non-blank lines are all header lines, the
parser returns no distros, and WSL detection on Windows returns
`available=false` with the "installed but no distribution" error and null
version and default distro.  (The parser is a total function, so no input can
raise an exception.) -/
theorem headerOnly_noDistribution_c7 (output : String)
    (h : ∀ l ∈ wslLines output, isHeaderLine l = true) :
    parseWslListOutput output = { version := none, defaultDistro := none, distros := [] }
  ∧ detectWsl Platform.win32 (ProbeResult.ok output) =
      { available := false, version := none, defaultDistro := none, distros := [],
        error := some "WSL 已安装但未安装任何 Linux 发行版" } := by
  have hd : wslDataLines output = [] := by
    unfold wslDataLines
    rw [List.filter_eq_nil_iff]
    intro l hl
    simp [h l hl]
  have hp : parseWslListOutput output =
      { version := none, defaultDistro := none, distros := [] } := by
    show (wslDataLines output).foldl wslLineStep
      { version := none, defaultDistro := none, distros := [] } = _
    rw [hd]
    rfl
  refine ⟨hp, ?_⟩
  simp [detectWsl, hp]

/-- Witness for C7 at a concrete header-and-blank-only output. -/
theorem headerOnly_noDistribution_c7_witness :
    parseWslListOutput "  NAME   STATE   VERSION\n\n   " =
      { version := none, defaultDistro := none, distros := [] }
  ∧ detectWsl Platform.win32 (ProbeResult.ok "  NAME   STATE   VERSION\n\n   ") =
      { available := false, version := none, defaultDistro := none, distros := [],
        error := some "WSL 已安装但未安装任何 Linux 发行版" } :=
  headerOnly_noDistribution_c7 "  NAME   STATE   VERSION\n\n   " (by decide)

/-- C8 counterexample: `Alpine 2` is a non-empty, non-header line, but because
it splits into fewer than three whitespace-separated tokens the parser skips
it entirely instead of recording `Alpine`, so the claim as stated is false. -/
theorem shortLineSkipped_c8_counterexample :
    isHeaderLine "Alpine 2" = false
  ∧ wslLines "Alpine 2" = ["Alpine 2"]
  ∧ parseWslListOutput "Alpine 2" =
      { version := none, defaultDistro := none, distros := [] } := by
  decide

/-- C8 amended: for every non-empty non-header line that, after stripping the
leading default marker and trimming, splits into AT LEAST THREE whitespace
tokens with a non-empty first token, the parser records the first token as a
distro name in encounter order and treats the last token as that row's version
marker; lines with fewer than three tokens are skipped entirely; the default
distro is the name from the most recent default-marked such row, and version
is set only from a default row whose marker is `1` or `2` (the most recent one
winning). -/
theorem wslPerLine_c8 (output : String) :
    (parseWslListOutput output).distros = (wslDataLines output).filterMap lineDistroName
  ∧ (parseWslListOutput output).defaultDistro =
      lastSome ((wslDataLines output).filterMap lineDefaultName) none
  ∧ (parseWslListOutput output).version =
      lastSome ((wslDataLines output).filterMap lineVersionMark) none := by
  refine ⟨?_, ?_, ?_⟩
  · show ((wslDataLines output).foldl wslLineStep
      { version := none, defaultDistro := none, distros := [] }).distros = _
    rw [wslFold_spec]
    simp
  · show ((wslDataLines output).foldl wslLineStep
      { version := none, defaultDistro := none, distros := [] }).defaultDistro = _
    rw [wslFold_spec]
  · show ((wslDataLines output).foldl wslLineStep
      { version := none, defaultDistro := none, distros := [] }).version = _
    rw [wslFold_spec]

/-- C9: every line containing `NAME`, `STATE` or `VERSION` as a case-sensitive
substring is discarded as a header line — inserting such a line anywhere
leaves the parse result unchanged — and consequently no parsed distro name,
and no default distro, contains one of those substrings. -/
theorem headerTokenLines_discarded_c9 :
    (∀ (ls₁ ls₂ : List String) (hl : String), isHeaderLine hl = true →
        parseWslLines (ls₁ ++ hl :: ls₂) = parseWslLines (ls₁ ++ ls₂))
  ∧ (∀ (output d : String), d ∈ (parseWslListOutput output).distros →
        strContains d "NAME" = false ∧ strContains d "STATE" = false ∧
        strContains d "VERSION" = false)
  ∧ (∀ (output d : String), (parseWslListOutput output).defaultDistro = some d →
        strContains d "NAME" = false ∧ strContains d "STATE" = false ∧
        strContains d "VERSION" = false) := by
  refine ⟨?_, ?_, ?_⟩
  · intro ls₁ ls₂ hl hh
    unfold parseWslLines
    rw [List.filter_append, List.filter_append, List.filter_cons]
    simp [hh]
  · intro output d hd
    have hds : (parseWslListOutput output).distros =
        (wslDataLines output).filterMap lineDistroName := by
      show ((wslDataLines output).foldl wslLineStep
        { version := none, defaultDistro := none, distros := [] }).distros = _
      rw [wslFold_spec]
      simp
    rw [hds] at hd
    obtain ⟨line, hmem, hname⟩ := List.mem_filterMap.mp hd
    have hh : isHeaderLine line = false := by
      unfold wslDataLines at hmem
      simpa using (List.mem_filter.mp hmem).2
    exact lineDistroName_no_header_token line d hh hname
  · intro output d hd
    have hds : (parseWslListOutput output).defaultDistro =
        lastSome ((wslDataLines output).filterMap lineDefaultName) none := by
      show ((wslDataLines output).foldl wslLineStep
        { version := none, defaultDistro := none, distros := [] }).defaultDistro = _
      rw [wslFold_spec]
    rw [hds] at hd
    rcases lastSome_eq_some _ _ _ hd with hmem | hnone
    · obtain ⟨line, hmemL, hname⟩ := List.mem_filterMap.mp hmem
      have hh : isHeaderLine line = false := by
        unfold wslDataLines at hmemL
        simpa using (List.mem_filter.mp hmemL).2
      have hdn : lineDistroName line = some d := by
        unfold lineDefaultName at hname
        split_ifs at hname
        exact hname
      exact lineDistroName_no_header_token line d hh hdn
    · exact absurd hnone (by simp)

/-- Witness for C9 at a concrete header line and a concrete parsed output. -/
theorem headerTokenLines_discarded_c9_witness :
    parseWslLines (["* Ubuntu Running 2"] ++ "  NAME  STATE  VERSION" :: ["Debian Stopped 1"]) =
      parseWslLines (["* Ubuntu Running 2"] ++ ["Debian Stopped 1"])
  ∧ (strContains "Ubuntu" "NAME" = false ∧ strContains "Ubuntu" "STATE" = false ∧
      strContains "Ubuntu" "VERSION" = false) :=
  ⟨headerTokenLines_discarded_c9.1 ["* Ubuntu Running 2"] ["Debian Stopped 1"]
      "  NAME  STATE  VERSION" (by decide),
   headerTokenLines_discarded_c9.2.1
      "* Ubuntu          Running         2" "Ubuntu" (by decide)⟩

/-! ## Structural lemmas about the coordinator -/

/-- Case-split summary of `initializeRuntime`: on a propagated error the module
state is untouched; on success the assembled status determines every field and
replaces the cache wholesale. -/
theorem initializeRuntime_spec (env : DetectorEnv) (options : RuntimeInitOptions)
    (s : CoordState) :
    (∀ e, (initializeRuntime env options s).1 = Except.error e →
        (initializeRuntime env options s).2.1 = s)
  ∧ (∀ rs, (initializeRuntime env options s).1 = Except.ok rs →
        rs.shell = (shellDetectionStep env options).1 ∧
        rs.envLoaded = envLoadedResult env options ∧
        rs.initializedAt = env.now ∧
        (initializeRuntime env options s).2.1 =
          { runtimeStatusCache := some rs, isInitialized := true } ∧
        Except.ok rs.node =
          (detectorStep options.skipNodeDetection skippedNodeStatus DetectorCall.node
            env.detectNodeRuntime).1 ∧
        Except.ok rs.bun =
          (detectorStep options.skipBunDetection skippedBunStatus DetectorCall.bun
            env.detectBunRuntime).1 ∧
        Except.ok rs.git =
          (detectorStep options.skipGitDetection skippedGitStatus DetectorCall.git
            env.detectGitRuntime).1) := by
  unfold initializeRuntime
  rcases hn : (detectorStep options.skipNodeDetection skippedNodeStatus DetectorCall.node
      env.detectNodeRuntime).1 with e₁ | nodeStatus
  · simp only [hn]
    exact ⟨fun e _ => trivial, fun rs hrs => by simp at hrs⟩
  · simp only [hn]
    rcases hb : (detectorStep options.skipBunDetection skippedBunStatus DetectorCall.bun
        env.detectBunRuntime).1 with e₂ | bunStatus
    · simp only [hb]
      exact ⟨fun e _ => trivial, fun rs hrs => by simp at hrs⟩
    · simp only [hb]
      rcases hg : (detectorStep options.skipGitDetection skippedGitStatus DetectorCall.git
          env.detectGitRuntime).1 with e₃ | gitStatus
      · simp only [hg]
        exact ⟨fun e _ => trivial, fun rs hrs => by simp at hrs⟩
      · simp only [hg]
        refine ⟨fun e he => by simp at he, fun rs hrs => ?_⟩
        cases Except.ok.inj hrs
        exact ⟨rfl, rfl, rfl, rfl, rfl, rfl, rfl⟩

/-- The trace entries of one skippable step. -/
theorem detectorStep_trace {α : Type} (skip : Bool) (skipped : α) (call : DetectorCall)
    (run : Except String α) :
    (detectorStep skip skipped call run).2 = if skip then [] else [call] := by
  unfold detectorStep
  split_ifs <;> rfl

/-- The shell step only ever awaits the Git-Bash and WSL detectors. -/
theorem shellDetectionStep_trace (env : DetectorEnv) (options : RuntimeInitOptions) :
    ∀ c ∈ (shellDetectionStep env options).2,
      c = DetectorCall.gitBash ∨ c = DetectorCall.wsl := by
  unfold shellDetectionStep
  split_ifs
  · cases hg : env.detectGitBash with
    | error e => simp
    | ok g =>
        cases hw : env.detectWslCall with
        | error e => simp
        | ok w => simp
  · simp

/-- A rejection of either Windows shell detector is caught and leaves the
`shell` field undefined. -/
theorem shellDetectionStep_none_of_throw (env : DetectorEnv) (options : RuntimeInitOptions)
    (hshell : (∃ e, env.detectGitBash = Except.error e) ∨
      (∃ e, env.detectWslCall = Except.error e)) :
    (shellDetectionStep env options).1 = none := by
  unfold shellDetectionStep
  split_ifs
  · rcases hshell with ⟨e, he⟩ | ⟨e, he⟩
    · simp [he]
    · cases hg : env.detectGitBash with
      | error e₂ => simp
      | ok g => simp [he]
  · rfl

/-- Membership in the call list of one conditional step. -/
theorem mem_ite_trace (c call : DetectorCall) (b : Bool)
    (hc : c ∈ if b then ([] : List DetectorCall) else [call]) :
    c = call ∧ b = false := by
  split_ifs at hc with h1
  · simp at hc
  · simp at hc
    exact ⟨hc, by simpa using h1⟩

/-- Every awaited call in the trace belongs to a step that was not skipped. -/
theorem initializeRuntime_trace (env : DetectorEnv) (options : RuntimeInitOptions)
    (s : CoordState) :
    ∀ c ∈ (initializeRuntime env options s).2.2,
      (c = DetectorCall.envLoad ∧ options.skipEnvLoad = false) ∨
      (c = DetectorCall.node ∧ options.skipNodeDetection = false) ∨
      (c = DetectorCall.bun ∧ options.skipBunDetection = false) ∨
      (c = DetectorCall.git ∧ options.skipGitDetection = false) ∨
      c = DetectorCall.gitBash ∨ c = DetectorCall.wsl := by
  have hshell := shellDetectionStep_trace env options
  unfold initializeRuntime
  rcases hn : (detectorStep options.skipNodeDetection skippedNodeStatus DetectorCall.node
      env.detectNodeRuntime).1 with e₁ | nodeStatus
  · simp only [hn]
    intro c hc
    simp only [detectorStep_trace, List.mem_append] at hc
    rcases hc with hc | hc
    · obtain ⟨rfl, h⟩ := mem_ite_trace c DetectorCall.envLoad options.skipEnvLoad hc
      exact Or.inl ⟨rfl, h⟩
    · obtain ⟨rfl, h⟩ := mem_ite_trace c DetectorCall.node options.skipNodeDetection hc
      exact Or.inr (Or.inl ⟨rfl, h⟩)
  · simp only [hn]
    rcases hb : (detectorStep options.skipBunDetection skippedBunStatus DetectorCall.bun
        env.detectBunRuntime).1 with e₂ | bunStatus
    · simp only [hb]
      intro c hc
      simp only [detectorStep_trace, List.mem_append] at hc
      rcases hc with (hc | hc) | hc
      · obtain ⟨rfl, h⟩ := mem_ite_trace c DetectorCall.envLoad options.skipEnvLoad hc
        exact Or.inl ⟨rfl, h⟩
      · obtain ⟨rfl, h⟩ := mem_ite_trace c DetectorCall.node options.skipNodeDetection hc
        exact Or.inr (Or.inl ⟨rfl, h⟩)
      · obtain ⟨rfl, h⟩ := mem_ite_trace c DetectorCall.bun options.skipBunDetection hc
        exact Or.inr (Or.inr (Or.inl ⟨rfl, h⟩))
    · simp only [hb]
      rcases hg : (detectorStep options.skipGitDetection skippedGitStatus DetectorCall.git
          env.detectGitRuntime).1 with e₃ | gitStatus
      · simp only [hg]
        intro c hc
        simp only [detectorStep_trace, List.mem_append] at hc
        rcases hc with ((hc | hc) | hc) | hc
        · obtain ⟨rfl, h⟩ := mem_ite_trace c DetectorCall.envLoad options.skipEnvLoad hc
          exact Or.inl ⟨rfl, h⟩
        · obtain ⟨rfl, h⟩ := mem_ite_trace c DetectorCall.node options.skipNodeDetection hc
          exact Or.inr (Or.inl ⟨rfl, h⟩)
        · obtain ⟨rfl, h⟩ := mem_ite_trace c DetectorCall.bun options.skipBunDetection hc
          exact Or.inr (Or.inr (Or.inl ⟨rfl, h⟩))
        · obtain ⟨rfl, h⟩ := mem_ite_trace c DetectorCall.git options.skipGitDetection hc
          exact Or.inr (Or.inr (Or.inr (Or.inl ⟨rfl, h⟩)))
      · simp only [hg]
        intro c hc
        simp only [detectorStep_trace, List.mem_append] at hc
        rcases hc with (((hc | hc) | hc) | hc) | hc
        · obtain ⟨rfl, h⟩ := mem_ite_trace c DetectorCall.envLoad options.skipEnvLoad hc
          exact Or.inl ⟨rfl, h⟩
        · obtain ⟨rfl, h⟩ := mem_ite_trace c DetectorCall.node options.skipNodeDetection hc
          exact Or.inr (Or.inl ⟨rfl, h⟩)
        · obtain ⟨rfl, h⟩ := mem_ite_trace c DetectorCall.bun options.skipBunDetection hc
          exact Or.inr (Or.inr (Or.inl ⟨rfl, h⟩))
        · obtain ⟨rfl, h⟩ := mem_ite_trace c DetectorCall.git options.skipGitDetection hc
          exact Or.inr (Or.inr (Or.inr (Or.inl ⟨rfl, h⟩)))
        · rcases hshell c hc with h | h
          · exact Or.inr (Or.inr (Or.inr (Or.inr (Or.inl h))))
          · exact Or.inr (Or.inr (Or.inr (Or.inr (Or.inr h))))

/-! ## Concrete fixtures for counterexamples and witnesses -/

def nodeOkStatus : NodeRuntimeStatus :=
  { available := true, version := some "20.11.0", path := some "/usr/bin/node", error := none }

def bunOkStatus : BunRuntimeStatus :=
  { available := true, path := some "/usr/bin/bun", version := some "1.1.0",
    source := some BunSource.system, error := none }

def gitOkStatus : GitRuntimeStatus :=
  { available := true, version := some "2.44.0", path := some "/usr/bin/git", error := none }

def gitBashOkStatus : GitBashStatus :=
  { available := true, path := some "C:/Program Files/Git/bin/bash.exe",
    version := some "5.2.26", error := none }

def wslOkStatus : WslStatus :=
  { available := true, version := some 2, defaultDistro := some "Ubuntu",
    distros := ["Ubuntu"], error := none }

/-- An environment on Windows in which every external call succeeds. -/
def envAllOk : DetectorEnv :=
  { platform := Platform.win32,
    loadShellEnv := Except.ok { success := true, loadedCount := 5, error := none },
    detectNodeRuntime := Except.ok nodeOkStatus,
    detectBunRuntime := Except.ok bunOkStatus,
    detectGitRuntime := Except.ok gitOkStatus,
    detectGitBash := Except.ok gitBashOkStatus,
    detectWslCall := Except.ok wslOkStatus,
    now := 1700000000000 }

/-- Same environment but the Node detector call rejects unexpectedly. -/
def envNodeThrows : DetectorEnv :=
  { envAllOk with detectNodeRuntime := Except.error "unexpected node failure" }

/-- Same environment but the Git-Bash detector call rejects. -/
def envGitBashThrows : DetectorEnv :=
  { envAllOk with detectGitBash := Except.error "EPERM" }

/-- A previously built status sitting in the coordinator cache. -/
def cachedStatusA : RuntimeStatus :=
  { node := nodeOkStatus, bun := bunOkStatus, git := gitOkStatus, shell := none,
    envLoaded := true, initializedAt := 1 }

def stateWithCacheA : CoordState :=
  { runtimeStatusCache := some cachedStatusA, isInitialized := true }

/-- The status `initializeRuntime` assembles from `envAllOk` with no skips. -/
def fullStatusA : RuntimeStatus :=
  { node := nodeOkStatus, bun := bunOkStatus, git := gitOkStatus,
    shell := some { gitBash := gitBashOkStatus, wsl := wslOkStatus,
                    recommended := some ShellKind.gitBash },
    envLoaded := true, initializedAt := 1700000000000 }

/-! ## Claim theorems about the coordinator -/

/-- C2 counterexample: with a status in the cache and a Node detector that
rejects unexpectedly, `reinitializeRuntime` propagates the error, yet the
cache has already been cleared to `none` instead of still holding the
previous status — the cache is not left unchanged. -/
theorem reinitClearsCache_c2_counterexample :
    (reinitializeRuntime envNodeThrows {} stateWithCacheA).1 =
      Except.error "unexpected node failure"
  ∧ getRuntimeStatus stateWithCacheA = some cachedStatusA
  ∧ getRuntimeStatus (reinitializeRuntime envNodeThrows {} stateWithCacheA).2.1 = none :=
  ⟨rfl, rfl, rfl⟩

/-- C2 amended: an unexpected failure inside `initializeRuntime` leaves the
coordinator state untouched, and on success the cache is replaced wholesale by
the fully built status; `reinitializeRuntime`, however, clears the cache to
null before re-running, so an unexpected failure during reinitialization
leaves the cache null rather than holding the previous status. -/
theorem initFailureKeepsState_c2 (env : DetectorEnv) (options : RuntimeInitOptions)
    (s : CoordState) :
    (∀ e, (initializeRuntime env options s).1 = Except.error e →
        (initializeRuntime env options s).2.1 = s)
  ∧ (∀ rs, (initializeRuntime env options s).1 = Except.ok rs →
        (initializeRuntime env options s).2.1 =
          { runtimeStatusCache := some rs, isInitialized := true })
  ∧ (∀ e, (reinitializeRuntime env options s).1 = Except.error e →
        getRuntimeStatus (reinitializeRuntime env options s).2.1 = none) := by
  obtain ⟨herr, hok⟩ := initializeRuntime_spec env options s
  refine ⟨herr, fun rs h => (hok rs h).2.2.2.1, fun e h => ?_⟩
  have h2 := (initializeRuntime_spec env options
    { runtimeStatusCache := none, isInitialized := false }).1 e h
  show (reinitializeRuntime env options s).2.1.runtimeStatusCache = none
  rw [show (reinitializeRuntime env options s).2.1 =
    ({ runtimeStatusCache := none, isInitialized := false } : CoordState) from h2]

/-- Witness for C2 amended at the concrete failing environment. -/
theorem initFailureKeepsState_c2_witness :
    (initializeRuntime envNodeThrows {} stateWithCacheA).2.1 = stateWithCacheA ∧
    getRuntimeStatus (reinitializeRuntime envNodeThrows {} stateWithCacheA).2.1 = none :=
  ⟨(initFailureKeepsState_c2 envNodeThrows {} stateWithCacheA).1
      "unexpected node failure" rfl,
   (initFailureKeepsState_c2 envNodeThrows {} stateWithCacheA).2.2
      "unexpected node failure" rfl⟩

/-- C3 counterexample: on Windows with `skipShellDetection=true`,
`initializeRuntime` succeeds and the produced RuntimeStatus has no `shell`
field even though the platform is Windows, refuting the "if and only if"
claim for arbitrary RuntimeInitOptions. -/
theorem shellAbsentOnWindows_c3_counterexample :
    envAllOk.platform = Platform.win32
  ∧ (initializeRuntime envAllOk { skipShellDetection := true } stateWithCacheA).1 =
      Except.ok { node := nodeOkStatus, bun := bunOkStatus, git := gitOkStatus,
                  shell := none, envLoaded := true, initializedAt := 1700000000000 } :=
  ⟨rfl, rfl⟩

/-- C3 amended: `shell` can only be present on Windows, and on Windows it is
present exactly when shell detection was not skipped and neither the Git-Bash
nor the WSL detector call threw. -/
theorem shellPresence_c3 (env : DetectorEnv) (options : RuntimeInitOptions)
    (s : CoordState) (rs : RuntimeStatus)
    (h : (initializeRuntime env options s).1 = Except.ok rs) :
    rs.shell ≠ none ↔
      env.platform = Platform.win32 ∧ options.skipShellDetection = false ∧
      (∃ g, env.detectGitBash = Except.ok g) ∧
      (∃ w, env.detectWslCall = Except.ok w) := by
  have hsh := ((initializeRuntime_spec env options s).2 rs h).1
  rw [hsh]
  unfold shellDetectionStep
  split_ifs with hcond
  · cases hg : env.detectGitBash with
    | error e =>
        simp only [hg]
        constructor
        · intro hne
          exact absurd rfl hne
        · rintro ⟨-, -, ⟨g, hgeq⟩, -⟩
          simp [hg] at hgeq
    | ok g =>
        cases hw : env.detectWslCall with
        | error e =>
            simp only [hg, hw]
            constructor
            · intro hne
              exact absurd rfl hne
            · rintro ⟨-, -, -, ⟨w, hweq⟩⟩
              simp [hw] at hweq
        | ok w =>
            simp only [hg, hw]
            constructor
            · intro _
              exact ⟨hcond.1, hcond.2, ⟨g, rfl⟩, ⟨w, rfl⟩⟩
            · intro _
              simp
  · constructor
    · intro hne
      exact absurd rfl hne
    · rintro ⟨h1, h2, -, -⟩
      exact absurd ⟨h1, h2⟩ hcond

/-- Witness for C3 amended: the full Windows run produces a present shell. -/
theorem shellPresence_c3_witness :
    fullStatusA.shell ≠ none ↔
      envAllOk.platform = Platform.win32 ∧ (({} : RuntimeInitOptions)).skipShellDetection = false ∧
      (∃ g, envAllOk.detectGitBash = Except.ok g) ∧
      (∃ w, envAllOk.detectWslCall = Except.ok w) :=
  shellPresence_c3 envAllOk {} stateWithCacheA fullStatusA rfl

/-- C5: the derived recommendation is `git-bash` whenever Git Bash is
available (regardless of WSL), `wsl` when Git Bash is unavailable and WSL is
available (for any WSL version), and null when neither is available; moreover
every shell status assembled by `initializeRuntime` carries exactly this
resolver's output for its own pair of detector results. -/
theorem recommendation_c5 (g : GitBashStatus) (w : WslStatus) :
    (g.available = true → resolveShellRecommendation g w = some ShellKind.gitBash)
  ∧ (g.available = false → w.available = true →
      resolveShellRecommendation g w = some ShellKind.wsl)
  ∧ (g.available = false → w.available = false → resolveShellRecommendation g w = none)
  ∧ (∀ (env : DetectorEnv) (options : RuntimeInitOptions) (s : CoordState)
        (rs : RuntimeStatus) (sh : ShellEnvironmentStatus),
      (initializeRuntime env options s).1 = Except.ok rs → rs.shell = some sh →
      sh.recommended = resolveShellRecommendation sh.gitBash sh.wsl) := by
  refine ⟨?_, ?_, ?_, ?_⟩
  · intro h
    simp [resolveShellRecommendation, h]
  · intro h1 h2
    simp [resolveShellRecommendation, h1, h2]
  · intro h1 h2
    simp [resolveShellRecommendation, h1, h2]
  · intro env options s rs sh hok hsh
    have h := ((initializeRuntime_spec env options s).2 rs hok).1
    rw [hsh] at h
    revert h
    unfold shellDetectionStep
    split_ifs with hcond
    · cases hg : env.detectGitBash with
      | error e => simp
      | ok gOK =>
          cases hw : env.detectWslCall with
          | error e => simp
          | ok wOK =>
              intro h
              simp only [Option.some.injEq] at h
              rw [h]
    · simp

/-- Witness for C5 at concrete detector statuses and the concrete full run. -/
theorem recommendation_c5_witness :
    resolveShellRecommendation gitBashOkStatus wslOkStatus = some ShellKind.gitBash
  ∧ fullStatusA.shell.elim True
      (fun sh => sh.recommended = resolveShellRecommendation sh.gitBash sh.wsl) :=
  ⟨(recommendation_c5 gitBashOkStatus wslOkStatus).1 rfl,
   (recommendation_c5 gitBashOkStatus wslOkStatus).2.2.2 envAllOk {} stateWithCacheA
      fullStatusA { gitBash := gitBashOkStatus, wsl := wslOkStatus,
                    recommended := some ShellKind.gitBash } rfl rfl⟩

/-- C6: with `skipGitDetection=true` every successfully assembled status
carries the fixed substituted Git record — `available=false`, null path and
version, and the error text naming the skip — and the Git detector is never
awaited, so no external process is spawned for Git; the field is substituted,
never omitted. -/
theorem skipGitSubstitutes_c6 (env : DetectorEnv) (options : RuntimeInitOptions)
    (s : CoordState) (h : options.skipGitDetection = true) :
    (∀ rs, (initializeRuntime env options s).1 = Except.ok rs →
        rs.git = { available := false, version := none, path := none,
                   error := some "已跳过 Git 检测" })
  ∧ DetectorCall.git ∉ (initializeRuntime env options s).2.2 := by
  constructor
  · intro rs hrs
    have hg := ((initializeRuntime_spec env options s).2 rs hrs).2.2.2.2.2.2
    rw [detectorStep, if_pos h] at hg
    exact Except.ok.inj hg
  · intro hc
    rcases initializeRuntime_trace env options s DetectorCall.git hc with
      ⟨h1, -⟩ | ⟨h1, -⟩ | ⟨h1, -⟩ | ⟨-, h2⟩ | h1 | h1
    · exact DetectorCall.noConfusion h1
    · exact DetectorCall.noConfusion h1
    · exact DetectorCall.noConfusion h1
    · rw [h] at h2
      exact Bool.noConfusion h2
    · exact DetectorCall.noConfusion h1
    · exact DetectorCall.noConfusion h1

/-- Witness for C6: a concrete run with Git detection skipped. -/
theorem skipGitSubstitutes_c6_witness :
    (initializeRuntime envAllOk { skipGitDetection := true } stateWithCacheA).1 =
      Except.ok { node := nodeOkStatus, bun := bunOkStatus,
                  git := { available := false, version := none, path := none,
                           error := some "已跳过 Git 检测" },
                  shell := fullStatusA.shell, envLoaded := true,
                  initializedAt := 1700000000000 }
  ∧ DetectorCall.git ∉
      (initializeRuntime envAllOk { skipGitDetection := true } stateWithCacheA).2.2 :=
  ⟨rfl,
   (skipGitSubstitutes_c6 envAllOk { skipGitDetection := true } stateWithCacheA rfl).2⟩

/-- C10: on Windows without `skipShellDetection`, if the Git-Bash or the WSL
detector call throws while Node/Bun/Git detection succeeds,
`initializeRuntime` still completes normally, caches a status whose `shell` is
absent while node, bun, git, envLoaded and initializedAt are populated as
usual, and no exception propagates out of the coordinator. -/
theorem shellThrowTolerated_c10 (env : DetectorEnv) (options : RuntimeInitOptions)
    (s : CoordState) (n : NodeRuntimeStatus) (b : BunRuntimeStatus) (g : GitRuntimeStatus)
    (hn : options.skipNodeDetection = false) (hb : options.skipBunDetection = false)
    (hg : options.skipGitDetection = false)
    (hnode : env.detectNodeRuntime = Except.ok n)
    (hbun : env.detectBunRuntime = Except.ok b)
    (hgit : env.detectGitRuntime = Except.ok g)
    (hshell : (∃ e, env.detectGitBash = Except.error e) ∨
      (∃ e, env.detectWslCall = Except.error e)) :
    (initializeRuntime env options s).1 =
      Except.ok { node := n, bun := b, git := g, shell := none,
                  envLoaded := envLoadedResult env options, initializedAt := env.now }
  ∧ (initializeRuntime env options s).2.1.runtimeStatusCache =
      some { node := n, bun := b, git := g, shell := none,
             envLoaded := envLoadedResult env options, initializedAt := env.now } := by
  have hsh := shellDetectionStep_none_of_throw env options hshell
  unfold initializeRuntime
  simp only [detectorStep, hn, hb, hg, hnode, hbun, hgit, if_neg, Bool.false_eq_true,
    ite_false, hsh]
  constructor <;> trivial

/-- Witness for C10: the concrete Windows environment whose Git-Bash detector
throws. -/
theorem shellThrowTolerated_c10_witness :
    (initializeRuntime envGitBashThrows {} stateWithCacheA).1 =
      Except.ok { node := nodeOkStatus, bun := bunOkStatus, git := gitOkStatus,
                  shell := none, envLoaded := envLoadedResult envGitBashThrows {},
                  initializedAt := envGitBashThrows.now }
  ∧ (initializeRuntime envGitBashThrows {} stateWithCacheA).2.1.runtimeStatusCache =
      some { node := nodeOkStatus, bun := bunOkStatus, git := gitOkStatus,
             shell := none, envLoaded := envLoadedResult envGitBashThrows {},
             initializedAt := envGitBashThrows.now } :=
  shellThrowTolerated_c10 envGitBashThrows {} stateWithCacheA
    nodeOkStatus bunOkStatus gitOkStatus rfl rfl rfl rfl rfl rfl
    (Or.inl ⟨"EPERM", rfl⟩)

/-- C4: for every status produced by a detector present in src/ (the WSL
detector), by the spec-modelled detectors, or by a skip substitution,
`available=false` implies a non-null `error` and null `path`/`version` (and
null `source` for the Bun status, null `defaultDistro` for the WSL status). -/
theorem unavailableInvariant_c4 (platform : Platform) (probe : ProbeResult)
    (nodeOutcome gitOutcome bashOutcome : ToolProbeOutcome)
    (bunWinner : Option (String × Option String × BunSource)) (bunMsg : String) :
    ((detectWsl platform probe).available = false →
        (detectWsl platform probe).error ≠ none ∧
        (detectWsl platform probe).version = none ∧
        (detectWsl platform probe).defaultDistro = none)
  ∧ ((detectNodeModel nodeOutcome).available = false →
        (detectNodeModel nodeOutcome).error ≠ none ∧
        (detectNodeModel nodeOutcome).path = none ∧
        (detectNodeModel nodeOutcome).version = none)
  ∧ ((detectGitModel gitOutcome).available = false →
        (detectGitModel gitOutcome).error ≠ none ∧
        (detectGitModel gitOutcome).path = none ∧
        (detectGitModel gitOutcome).version = none)
  ∧ ((detectGitBashModel bashOutcome).available = false →
        (detectGitBashModel bashOutcome).error ≠ none ∧
        (detectGitBashModel bashOutcome).path = none ∧
        (detectGitBashModel bashOutcome).version = none)
  ∧ ((detectBunModel bunWinner bunMsg).available = false →
        (detectBunModel bunWinner bunMsg).error ≠ none ∧
        (detectBunModel bunWinner bunMsg).path = none ∧
        (detectBunModel bunWinner bunMsg).version = none ∧
        (detectBunModel bunWinner bunMsg).source = none)
  ∧ (skippedNodeStatus.available = false ∧ skippedNodeStatus.error ≠ none ∧
      skippedNodeStatus.path = none ∧ skippedNodeStatus.version = none)
  ∧ (skippedBunStatus.available = false ∧ skippedBunStatus.error ≠ none ∧
      skippedBunStatus.path = none ∧ skippedBunStatus.version = none ∧
      skippedBunStatus.source = none)
  ∧ (skippedGitStatus.available = false ∧ skippedGitStatus.error ≠ none ∧
      skippedGitStatus.path = none ∧ skippedGitStatus.version = none) := by
  refine ⟨?_, ?_, ?_, ?_, ?_, ?_, ?_, ?_⟩
  · unfold detectWsl
    split_ifs with hplat
    · intro _
      exact ⟨by simp, rfl, rfl⟩
    · cases probe with
      | ok output =>
          dsimp only
          split_ifs with hempty
          · intro _
            exact ⟨by simp, rfl, rfl⟩
          · intro hav
            simp at hav
      | err msg =>
          dsimp only
          split_ifs with hmsg
          · intro _
            exact ⟨by simp, rfl, rfl⟩
          · intro _
            exact ⟨by simp, rfl, rfl⟩
  · cases nodeOutcome <;> simp [detectNodeModel]
  · cases gitOutcome <;> simp [detectGitModel]
  · cases bashOutcome <;> simp [detectGitBashModel]
  · rcases bunWinner with - | ⟨p, v, src⟩ <;> simp [detectBunModel]
  · simp [skippedNodeStatus]
  · simp [skippedBunStatus]
  · simp [skippedGitStatus]

/-- Witness for C4 at concrete unavailable statuses. -/
theorem unavailableInvariant_c4_witness :
    (detectWsl Platform.darwin (ProbeResult.err "boom")).error ≠ none
  ∧ (detectNodeModel (ToolProbeOutcome.notFound "node executable not found")).path = none
  ∧ (detectBunModel none "bun not found via system, bundled or vendor").source = none := by
  have h := unavailableInvariant_c4 Platform.darwin (ProbeResult.err "boom")
    (ToolProbeOutcome.notFound "node executable not found")
    (ToolProbeOutcome.notFound "git executable not found")
    (ToolProbeOutcome.notFound "bash executable not found")
    none "bun not found via system, bundled or vendor"
  exact ⟨(h.1 rfl).1, (h.2.1 rfl).2.1, ((h.2.2.2.2.1 rfl).2.2.2 : _)⟩

end Proma
